import Mathlib

/-
Verification development for the session-management subsystem of the
`cloned_it` repository.

The repository contains two implementations of the session lifecycle:
  * an in-process model, `app/models/user.py` (class `User`), built on the
    generic helpers of `app/utils/datastore_client.py`, and
  * out-of-process "Cloud Function" implementations under `functions/`
    (`create_session`, `validate_session`, `delete_session`,
    `cleanup_old_sessions`).

This file gives a shallow embedding of both implementations and proves or
refutes the frozen claims about them.

Modelling conventions:
  * The Datastore is a list of (session_id, record) pairs.  `db.put`
    replaces the entity stored under a key, `db.delete` removes a key and
    succeeds also when the key is absent (Google Datastore semantics).
  * Timestamps are integers (seconds); `datetime.now()` during one call is
    a single parameter `now`; `timedelta(days = d)` is `d * day` seconds.
  * Python truthiness of an optional string (`if ip_address:`) is
    `optTruthy`: an absent value and the empty string are both falsy.
  * The session fingerprint is, as in the source, the first 16 hex
    characters of the SHA-256 digest of the UTF-8 encoding of the input;
    SHA-256 is implemented below and checked against standard test vectors.
  * Store failure: every helper of `datastore_client.py` wraps its body in
    a try/except returning None/False; the Cloud Functions instead let the
    exception reach a top-level handler that answers with a distinct 500
    response.  Each embedded operation therefore takes a `failing` flag
    describing whether the backing store raises during the call.
-/

set_option autoImplicit false
set_option maxRecDepth 100000

namespace ClonedIt

/-! ## Bitwise primitives (32-bit words as `Nat` reduced mod 2^32) -/

/-- Reduce a natural number to a 32-bit word. -/
def w32 (x : Nat) : Nat := x % 4294967296

/-- Right rotation of a 32-bit word by `n` bits. -/
def rotr32 (n x : Nat) : Nat := w32 ((x >>> n) ||| (x <<< (32 - n)))

/-- Bitwise complement within 32 bits. -/
def not32 (x : Nat) : Nat := x ^^^ 4294967295

/-- SHA-256 `Ch` function. -/
def ch32 (x y z : Nat) : Nat := (x &&& y) ^^^ (not32 x &&& z)

/-- SHA-256 `Maj` function. -/
def maj32 (x y z : Nat) : Nat := ((x &&& y) ^^^ (x &&& z)) ^^^ (y &&& z)

/-- SHA-256 big sigma-0. -/
def sumSig0 (x : Nat) : Nat := (rotr32 2 x ^^^ rotr32 13 x) ^^^ rotr32 22 x

/-- SHA-256 big sigma-1. -/
def sumSig1 (x : Nat) : Nat := (rotr32 6 x ^^^ rotr32 11 x) ^^^ rotr32 25 x

/-- SHA-256 small sigma-0. -/
def schedSig0 (x : Nat) : Nat := (rotr32 7 x ^^^ rotr32 18 x) ^^^ (x >>> 3)

/-- SHA-256 small sigma-1. -/
def schedSig1 (x : Nat) : Nat := (rotr32 17 x ^^^ rotr32 19 x) ^^^ (x >>> 10)

/-- The 64 SHA-256 round constants (FIPS 180-4), written in decimal. -/
def K256 : List Nat :=
  [1116352408, 1899447441, 3049323471, 3921009573,
   961987163, 1508970993, 2453635748, 2870763221,
   3624381080, 310598401, 607225278, 1426881987,
   1925078388, 2162078206, 2614888103, 3248222580,
   3835390401, 4022224774, 264347078, 604807628,
   770255983, 1249150122, 1555081692, 1996064986,
   2554220882, 2821834349, 2952996808, 3210313671,
   3336571891, 3584528711, 113926993, 338241895,
   666307205, 773529912, 1294757372, 1396182291,
   1695183700, 1986661051, 2177026350, 2456956037,
   2730485921, 2820302411, 3259730800, 3345764771,
   3516065817, 3600352804, 4094571909, 275423344,
   430227734, 506948616, 659060556, 883997877,
   958139571, 1322822218, 1537002063, 1747873779,
   1955562222, 2024104815, 2227730452, 2361852424,
   2428436474, 2756734187, 3204031479, 3329325298]

/-- The SHA-256 initial hash state (FIPS 180-4), written in decimal. -/
def H256 : List Nat :=
  [1779033703, 3144134277, 1013904242, 2773480762,
   1359893119, 2600822924, 528734635, 1541459225]

/-- Fuel-driven worker for `chunksOfSucc`; structural recursion on the fuel
keeps it kernel-reducible. -/
def chunksFuel {α : Type} (m : Nat) : Nat → List α → List (List α)
  | 0, _ => []
  | _ + 1, [] => []
  | fuel + 1, a :: l => ((a :: l).take (m + 1)) :: chunksFuel m fuel ((a :: l).drop (m + 1))

/-- Split a list into chunks of size `m + 1` (the successor form makes the
chunk size positive). -/
def chunksOfSucc {α : Type} (m : Nat) (l : List α) : List (List α) :=
  chunksFuel m l.length l

/-- Convert four big-endian bytes to a 32-bit word. -/
def bytesToWord : List Nat → Nat
  | [a, b, c, d] => ((a * 256 + b) * 256 + c) * 256 + d
  | _ => 0

/-- Convert a 32-bit word to four big-endian bytes. -/
def wordToBytes (x : Nat) : List Nat :=
  [(x >>> 24) % 256, (x >>> 16) % 256, (x >>> 8) % 256, x % 256]

/-- Extend a 16-word message schedule by `k` further words. -/
def extendSchedule : Nat → List Nat → List Nat
  | 0, ws => ws
  | k + 1, ws =>
      let t := ws.length
      extendSchedule k (ws ++ [w32 (schedSig1 (ws.getD (t - 2) 0) + ws.getD (t - 7) 0 +
        schedSig0 (ws.getD (t - 15) 0) + ws.getD (t - 16) 0)])

/-- One SHA-256 compression round applied to an 8-word state. -/
def compressStep (st : List Nat) (kw : Nat × Nat) : List Nat :=
  match st with
  | [a, b, c, d, e, f, g, h] =>
      let t1 := w32 (h + sumSig1 e + ch32 e f g + kw.1 + kw.2)
      let t2 := w32 (sumSig0 a + maj32 a b c)
      [w32 (t1 + t2), a, b, c, w32 (d + t1), e, f, g]
  | other => other

/-- Process one 64-byte block, updating the 8-word hash state. -/
def processBlock (hs : List Nat) (block : List Nat) : List Nat :=
  let ws := extendSchedule 48 ((chunksOfSucc 3 block).map bytesToWord)
  let st := (K256.zip ws).foldl compressStep hs
  (hs.zip st).map (fun p => w32 (p.1 + p.2))

/-- SHA-256 padding of a byte-list message. -/
def sha256Pad (msg : List Nat) : List Nat :=
  let bitLen := 8 * msg.length
  let zeros := (119 - msg.length % 64) % 64
  msg ++ [0x80] ++ List.replicate zeros 0 ++
    (List.range 8).map (fun i => (bitLen >>> (8 * (7 - i))) % 256)

/-- SHA-256 digest (32 bytes) of a byte-list message. -/
def sha256Bytes (msg : List Nat) : List Nat :=
  let hs := (chunksOfSucc 63 (sha256Pad msg)).foldl processBlock H256
  hs.foldr (fun wrd acc => wordToBytes wrd ++ acc) []

/-- Lower-case hex digit for a value below 16. -/
def hexDigit (n : Nat) : Char :=
  if n < 10 then Char.ofNat (48 + n) else Char.ofNat (87 + n)

/-- Two-digit lower-case hex rendering of a byte. -/
def byteHex (b : Nat) : List Char := [hexDigit (b / 16), hexDigit (b % 16)]

/-- UTF-8 encoding of one character, as the list of its bytes.  This is the
encoding `str.encode()` performs in the Python source. -/
def utf8EncodeChar (c : Char) : List Nat :=
  let n := c.toNat
  if n < 0x80 then [n]
  else if n < 0x800 then
    [0xc0 ||| (n >>> 6), 0x80 ||| (n % 64)]
  else if n < 0x10000 then
    [0xe0 ||| (n >>> 12), 0x80 ||| ((n >>> 6) % 64), 0x80 ||| (n % 64)]
  else
    [0xf0 ||| (n >>> 18), 0x80 ||| ((n >>> 12) % 64), 0x80 ||| ((n >>> 6) % 64),
     0x80 ||| (n % 64)]

/-- UTF-8 encoding of a string as a byte list. -/
def utf8Encode (s : String) : List Nat :=
  (s.toList.map utf8EncodeChar).flatten

/-- Lower-case hex digest of the SHA-256 hash of a string, the value of
Python's hashlib.sha256(s.encode()).hexdigest(). -/
def sha256Hex (s : String) : String :=
  String.mk (((sha256Bytes (utf8Encode s)).map byteHex).flatten)

/-- The session fingerprint used throughout the source:
hashlib.sha256(x.encode()).hexdigest()[:16]. -/
def fingerprint16 (s : String) : String := (sha256Hex s).take 16

/-- Standard test vector: SHA-256 of the empty string. -/
theorem sha256Hex_empty :
    sha256Hex "" = "e3b0c44298fc1c149afbf4c8996fb92427ae41e4649b934ca495991b7852b855" := by
  decide

/-- Standard test vector: SHA-256 of "abc". -/
theorem sha256Hex_abc :
    sha256Hex "abc" = "ba7816bf8f01cfea414140de5dae2223b00361a396177a9cb410ff61f20015ad" := by
  decide

/-! ## Data model -/

/-- One second-resolution day, used for timedelta(days = d). -/
def day : Int := 86400

/-- timedelta(days = 30), the session TTL. -/
def thirtyDays : Int := 30 * day

/-- timedelta(days = 7), the sweep retention window. -/
def sevenDays : Int := 7 * day

/-- A stored session entity, with the fields written by create_session.
ip_hash and ua_hash are absent (None) when no fingerprint was captured. -/
structure Session where
  user_id : String
  email : String
  name : String
  picture : Option String
  created_at : Int
  last_active : Int
  expires_at : Int
  ip_hash : Option String
  ua_hash : Option String
deriving DecidableEq

/-- The identity snapshot returned by a successful validation
(user_id, email, name, picture). -/
structure Identity where
  user_id : String
  email : String
  name : String
  picture : Option String
deriving DecidableEq

/-- The identity snapshot taken from a stored session. -/
def identityOf (s : Session) : Identity :=
  { user_id := s.user_id, email := s.email, name := s.name, picture := s.picture }

/-- The Datastore Session kind: entities keyed by session_id. -/
abbrev Store : Type := List (String × Session)

/-- db.get on a key: the entity stored under the session id, if any. -/
def storeGet (st : Store) (sid : String) : Option Session :=
  (st.find? (fun p => p.1 == sid)).map (fun p => p.2)

/-- db.delete on a key: removes the entity; deleting an absent key is a
successful no-op (Google Datastore semantics). -/
def storeDelete (st : Store) (sid : String) : Store :=
  st.filter (fun p => p.1 != sid)

/-- db.put of an entity under a key: replaces any entity stored there. -/
def storePut (st : Store) (sid : String) (s : Session) : Store :=
  (sid, s) :: storeDelete st sid

/-- Python truthiness of an optional string: None and the empty string are
falsy (the source guards fingerprint data with if ip_address: and
if stored_ip_hash and ...:). -/
def optTruthy : Option String → Bool
  | none => false
  | some s => s != ""

/-- Python truthiness of a string (used by if not all([user_id, email, name])). -/
def strTruthy (s : String) : Bool := s != ""

/-! ## Generic datastore helpers of app/utils/datastore_client.py

Every helper wraps its body in try/except; when the backing store raises
(the `failing` flag), get_entity and update_entity return None, create_entity
returns None, delete_entity returns False.  The exception never escapes. -/

/-- get_entity of app/utils/datastore_client.py: a swallowed store error is
indistinguishable from an absent entity (both return None). -/
def get_entity (failing : Bool) (st : Store) (sid : String) : Option Session :=
  if failing then none else storeGet st sid

/-- delete_entity of app/utils/datastore_client.py: db.delete succeeds also
for an absent key, so on a healthy store it always returns True; a swallowed
store error returns False. -/
def delete_entity (failing : Bool) (st : Store) (sid : String) : Bool × Store :=
  if failing then (false, st) else (true, storeDelete st sid)

/-- update_entity of app/utils/datastore_client.py restricted to the one call
site, data = LAST_ACTIVE: now: re-reads the entity, merges the single
field, writes it back; absent entity or store failure leaves the store
unchanged (the error is swallowed and the caller ignores the result). -/
def update_last_active (failing : Bool) (st : Store) (sid : String) (now : Int) : Store :=
  if failing then st
  else
    match storeGet st sid with
    | none => st
    | some s => storePut st sid { s with last_active := now }

/-! ## In-process implementation: class User of app/models/user.py

The Flask request object is reduced to the two attributes the code reads:
remote_addr (always a string on a connected socket) and the optional
User-Agent header, which request.headers.get("User-Agent", "") turns into
the empty string when the header is absent. -/

/-- The part of the Flask request the session code reads. -/
structure PyRequest where
  remote_addr : String
  userAgentHeader : Option String
deriving DecidableEq

namespace User

/-- User.get of app/models/user.py: queries the Session kind for user_id ==
user_id and expires_at > now, limit 1, and builds a User from the first
match; no session_id is taken, nothing is written or deleted, and no
fingerprint is compared.  Any exception yields None. -/
def get (failing : Bool) (st : Store) (now : Int) (user_id : String) : Option Identity :=
  if failing then none
  else
    match st.find? (fun p => p.2.user_id == user_id && decide (now < p.2.expires_at)) with
    | some p => some (identityOf p.2)
    | none => none

/-- The session_data dictionary built by User.create_session.  With a
request present, both hashes are always set: ip_hash from
request.remote_addr and ua_hash from request.headers.get("User-Agent", "")
— an absent User-Agent header is hashed as the empty string, not skipped. -/
def createdRecord (now : Int) (user_id email name : String) (picture : Option String)
    (req : Option PyRequest) : Session :=
  { user_id := user_id, email := email, name := name, picture := picture
    created_at := now, last_active := now, expires_at := now + thirtyDays
    ip_hash := req.map (fun r => fingerprint16 r.remote_addr)
    ua_hash := req.map (fun r => fingerprint16 (r.userAgentHeader.getD "")) }

/-- User.create_session of app/models/user.py.  The cryptographically random
secrets.token_urlsafe(32) value is the parameter `sid`.  The create_entity
result is ignored, so the session id is returned even when the write
failed. -/
def create_session (failing : Bool) (st : Store) (now : Int) (sid : String)
    (user_id email name : String) (picture : Option String) (req : Option PyRequest) :
    String × Store :=
  (sid, if failing then st
        else storePut st sid (createdRecord now user_id email name picture req))

/-- User.validate_session of app/models/user.py.  Expiry test is
expires_at < datetime.now(), strict.  With a request present the IP hash is
always compared (guarded only by the stored hash's truthiness); the
User-Agent hash is compared against the hash of
request.headers.get("User-Agent", ""), the empty string when the header is
absent.  Every invalid outcome is None. -/
def validate_session (failing : Bool) (st : Store) (now : Int) (sid : String)
    (req : Option PyRequest) : Option Identity × Store :=
  match get_entity failing st sid with
  | none => (none, st)
  | some s =>
    if s.expires_at < now then
      (none, (delete_entity failing st sid).2)
    else
      match req with
      | none => (some (identityOf s), update_last_active failing st sid now)
      | some r =>
        if optTruthy s.ip_hash && (s.ip_hash != some (fingerprint16 r.remote_addr)) then
          (none, (delete_entity failing st sid).2)
        else if optTruthy s.ua_hash &&
            (s.ua_hash != some (fingerprint16 (r.userAgentHeader.getD ""))) then
          (none, (delete_entity failing st sid).2)
        else
          (some (identityOf s), update_last_active failing st sid now)

/-- User.delete_session of app/models/user.py: the preceding get_entity call
only feeds the audit log; the returned value is delete_entity's, which on a
healthy store is True whether or not the session existed. -/
def delete_session (failing : Bool) (st : Store) (sid : String) : Bool × Store :=
  delete_entity failing st sid

end User

/-! ## Out-of-process implementations under functions/

The JSON-parsing layer (400 responses for a missing body or session_id) sits
before any store access and is omitted; session_id is a required parameter.
An exception raised by the store reaches the top-level except handler, which
answers with a distinct 500 response — modelled by the storeError outcome. -/

/-- Outcome of the validate_session Cloud Function: 404 not-found, the three
401 reasons, the 200 identity payload, or the 500 store-error response. -/
inductive FnResult where
  | notFound
  | expired
  | ipMismatch
  | uaMismatch
  | ok (i : Identity)
  | storeError
deriving DecidableEq

namespace Fn

/-- The IP fingerprint comparison of functions/validate_session/main.py:
runs only when the caller supplied a truthy ip_address and the stored
ip_hash is truthy, and fails when the hashes differ. -/
def ipCheckFails (s : Session) (ip : Option String) : Bool :=
  optTruthy ip && optTruthy s.ip_hash && (s.ip_hash != some (fingerprint16 (ip.getD "")))

/-- The User-Agent fingerprint comparison of
functions/validate_session/main.py, same shape as the IP one. -/
def uaCheckFails (s : Session) (ua : Option String) : Bool :=
  optTruthy ua && optTruthy s.ua_hash && (s.ua_hash != some (fingerprint16 (ua.getD "")))

/-- The session_data dictionary built by the create_session Cloud Function:
ip_address/user_agent are hashed only when truthy, absent otherwise. -/
def createdRecord (now : Int) (user_id email name : String) (picture ip ua : Option String) :
    Session :=
  { user_id := user_id, email := email, name := name, picture := picture
    created_at := now, last_active := now, expires_at := now + thirtyDays
    ip_hash := if optTruthy ip then some (fingerprint16 (ip.getD "")) else none
    ua_hash := if optTruthy ua then some (fingerprint16 (ua.getD "")) else none }

/-- create_session of functions/create_session/main.py.  Requires truthy
user_id, email and name (else a 400 response, modelled as None with the
store untouched); writes the record and echoes the session id. -/
def create_session (failing : Bool) (st : Store) (now : Int) (sid : String)
    (user_id email name : String) (picture ip ua : Option String) :
    Option String × Store :=
  if failing then (none, st)
  else if !(strTruthy user_id && strTruthy email && strTruthy name) then (none, st)
  else (some sid, storePut st sid (createdRecord now user_id email name picture ip ua))

/-- validate_session of functions/validate_session/main.py: fetch by id,
expiry (strict expires_at < now), IP fingerprint, User-Agent fingerprint,
each failure short-circuiting; on success last_active is set to now and the
identity payload is returned. -/
def validate_session (failing : Bool) (st : Store) (now : Int) (sid : String)
    (ip ua : Option String) : FnResult × Store :=
  if failing then (FnResult.storeError, st)
  else
    match storeGet st sid with
    | none => (FnResult.notFound, st)
    | some s =>
      if s.expires_at < now then (FnResult.expired, storeDelete st sid)
      else if ipCheckFails s ip then (FnResult.ipMismatch, storeDelete st sid)
      else if uaCheckFails s ua then (FnResult.uaMismatch, storeDelete st sid)
      else (FnResult.ok (identityOf s), storePut st sid { s with last_active := now })

/-- delete_session of functions/delete_session/main.py: 404 with
deleted = false when the session is absent, otherwise delete and
deleted = true; a store error is the distinct 500 response (None). -/
def delete_session (failing : Bool) (st : Store) (sid : String) : Option Bool × Store :=
  if failing then (none, st)
  else
    match storeGet st sid with
    | none => (some false, st)
    | some _ => (some true, storeDelete st sid)

/-- Batch deletion loop of functions/cleanup_old_sessions/main.py: each
batch of keys is removed with one delete_multi call and its size added to
deleted_count. -/
def deleteBatches : List (List String) → Store → Nat × Store
  | [], st => (0, st)
  | b :: bs, st =>
    let st' := st.filter (fun p => !(b.contains p.1))
    let r := deleteBatches bs st'
    (b.length + r.1, r.2)

/-- cleanup_old_sessions of functions/cleanup_old_sessions/main.py: queries
the sessions with last_active < now - 7 days and deletes them in batches of
at most 500 keys, returning the total count. -/
def cleanup_old_sessions (st : Store) (now : Int) : Nat × Store :=
  let cutoff := now - sevenDays
  let old := st.filter (fun p => decide (p.2.last_active < cutoff))
  deleteBatches (chunksOfSucc 499 (old.map (fun p => p.1))) st

end Fn

/-! ## Lemmas about the store -/

theorem storeGet_storeDelete_same (st : Store) (sid : String) :
    storeGet (storeDelete st sid) sid = none := by
  simp only [storeGet, storeDelete, List.find?_filter]
  rw [List.find?_eq_none.mpr] <;> simp

theorem storeGet_storeDelete_other (st : Store) (sid sid' : String) (h : sid' ≠ sid) :
    storeGet (storeDelete st sid) sid' = storeGet st sid' := by
  simp only [storeGet, storeDelete, List.find?_filter]
  have hp : (fun (a : String × Session) =>
      decide ((a.1 != sid) = true ∧ (a.1 == sid') = true)) = fun a => a.1 == sid' := by
    funext a
    by_cases h1 : a.1 = sid' <;> simp [h1, h]
  rw [hp]

theorem storeGet_storePut_same (st : Store) (sid : String) (s : Session) :
    storeGet (storePut st sid s) sid = some s := by
  simp [storePut, storeGet, List.find?]

theorem storeGet_storePut_other (st : Store) (sid sid' : String) (s : Session)
    (h : sid' ≠ sid) :
    storeGet (storePut st sid s) sid' = storeGet st sid' := by
  calc storeGet (storePut st sid s) sid'
      = storeGet (storeDelete st sid) sid' := by
        simp only [storePut, storeGet]
        rw [List.find?_cons_of_neg (p := fun p => p.1 == sid') (a := (sid, s))]
        simp
        exact fun hc => h hc.symm
    _ = storeGet st sid' := storeGet_storeDelete_other st sid sid' h

/-! ## Lemmas about chunking and batch deletion -/

theorem chunksFuel_flatten {α : Type} (m : Nat) :
    ∀ (fuel : Nat) (l : List α), l.length ≤ fuel → (chunksFuel m fuel l).flatten = l := by
  intro fuel
  induction fuel with
  | zero =>
    intro l hl
    have : l = [] := List.eq_nil_of_length_eq_zero (Nat.le_zero.mp hl)
    simp [this, chunksFuel]
  | succ fuel ih =>
    intro l hl
    match l with
    | [] => simp [chunksFuel]
    | a :: l =>
      have hdrop : ((a :: l).drop (m + 1)).length ≤ fuel := by
        simp only [List.length_drop]
        have : (a :: l).length ≤ fuel + 1 := hl
        simp only [List.length_cons] at this
        omega
      simp only [chunksFuel, List.flatten_cons, ih _ hdrop]
      exact List.take_append_drop (m + 1) (a :: l)

theorem chunksOfSucc_flatten {α : Type} (m : Nat) (l : List α) :
    (chunksOfSucc m l).flatten = l :=
  chunksFuel_flatten m l.length l (Nat.le_refl _)

theorem chunksFuel_mem_length {α : Type} (m : Nat) :
    ∀ (fuel : Nat) (l : List α) (c : List α), c ∈ chunksFuel m fuel l → c.length ≤ m + 1 := by
  intro fuel
  induction fuel with
  | zero => intro l c hc; simp [chunksFuel] at hc
  | succ fuel ih =>
    intro l c hc
    match l with
    | [] => simp [chunksFuel] at hc
    | a :: l =>
      simp only [chunksFuel, List.mem_cons] at hc
      rcases hc with hc | hc
      · subst hc
        simp
      · exact ih _ c hc

theorem chunksOfSucc_mem_length {α : Type} (m : Nat) (l : List α) (c : List α)
    (hc : c ∈ chunksOfSucc m l) : c.length ≤ m + 1 :=
  chunksFuel_mem_length m l.length l c hc

theorem deleteBatches_count (bs : List (List String)) :
    ∀ st : Store, (Fn.deleteBatches bs st).1 = (bs.map List.length).sum := by
  induction bs with
  | nil => intro st; rfl
  | cons b bs ih => intro st; simp [Fn.deleteBatches, ih]

theorem deleteBatches_store (bs : List (List String)) :
    ∀ st : Store,
      (Fn.deleteBatches bs st).2 = st.filter (fun p => !(bs.flatten.contains p.1)) := by
  induction bs with
  | nil =>
    intro st
    simp [Fn.deleteBatches]
  | cons b bs ih =>
    intro st
    simp only [Fn.deleteBatches, ih, List.filter_filter]
    apply List.filter_congr
    intro p _
    simp [List.contains, List.any_append, Bool.not_or, Bool.and_comm]

/-- In a store whose keys are distinct, two entries with the same key are the
same entry. -/
theorem nodup_keys_inj {st : Store} (h : (st.map Prod.fst).Nodup)
    {p q : String × Session} (hp : p ∈ st) (hq : q ∈ st) (hk : p.1 = q.1) : p = q := by
  induction st with
  | nil => cases hp
  | cons r st ih =>
    simp only [List.map_cons, List.nodup_cons] at h
    rcases List.mem_cons.mp hp with hp1 | hp1 <;> rcases List.mem_cons.mp hq with hq1 | hq1
    · rw [hp1, hq1]
    · exfalso
      apply h.1
      rw [← hp1, hk]
      exact List.mem_map_of_mem Prod.fst hq1
    · exfalso
      apply h.1
      rw [← hq1, ← hk]
      exact List.mem_map_of_mem Prod.fst hp1
    · exact ih h.2 hp1 hq1

/-- The IP check never fails against the hash its own input produced (or when
the stored hash is the one create_session stores for that input). -/
theorem ipCheckFails_of_own_hash (s : Session) (ip : Option String)
    (h : s.ip_hash = if optTruthy ip then some (fingerprint16 (ip.getD "")) else none) :
    Fn.ipCheckFails s ip = false := by
  cases hip : optTruthy ip <;> simp [Fn.ipCheckFails, h, hip]

/-- The User-Agent check never fails against the hash its own input produced. -/
theorem uaCheckFails_of_own_hash (s : Session) (ua : Option String)
    (h : s.ua_hash = if optTruthy ua then some (fingerprint16 (ua.getD "")) else none) :
    Fn.uaCheckFails s ua = false := by
  cases hua : optTruthy ua <;> simp [Fn.uaCheckFails, h, hua]

/-- An untruthy caller input or stored hash makes the IP check pass. -/
theorem ipCheckFails_skip (s : Session) (ip : Option String)
    (h : optTruthy ip = false ∨ optTruthy s.ip_hash = false) :
    Fn.ipCheckFails s ip = false := by
  rcases h with h | h <;> simp [Fn.ipCheckFails, h]

/-- An untruthy caller input or stored hash makes the User-Agent check pass. -/
theorem uaCheckFails_skip (s : Session) (ua : Option String)
    (h : optTruthy ua = false ∨ optTruthy s.ua_hash = false) :
    Fn.uaCheckFails s ua = false := by
  rcases h with h | h <;> simp [Fn.uaCheckFails, h]

/-! ## Concrete fixtures for witnesses and counterexamples -/

/-- A session that expired at time 5, fingerprint-bound to hashes no client
input matches. -/
def sExp : Session :=
  ⟨"u1", "e1", "n1", none, 0, 0, 5, some "deadbeef00000000", some "deadbeef00000000"⟩

/-- A session whose expires_at is exactly 100, with no fingerprints. -/
def sBd : Session := ⟨"u1", "e1", "n1", none, 0, 0, 100, none, none⟩

/-- A live session bound to the User-Agent "AgentA" but to no IP. -/
def sUA : Session := ⟨"u2", "e2", "n2", none, 0, 0, 1000, none, some (fingerprint16 "AgentA")⟩

/-- A live session with no fingerprints. -/
def sNoFp : Session := ⟨"u3", "e3", "n3", none, 0, 0, 1000, none, none⟩

/-- A session inactive since long before the 7-day retention cutoff but whose
expires_at lies far in the future. -/
def sOld7 : Session := ⟨"u4", "e4", "n4", none, -700000, -700000, 1000000, none, none⟩

/-! ## Claims -/

/-- C1, counterexample.  The claim says a session with expires_at less than
OR EQUAL TO the current time is deleted and reported Expired.  Both
implementations test expires_at < now strictly, so at expires_at = now = 100
the validation of session sBd succeeds (identity returned, last_active
touched) instead of returning Expired and deleting. -/
theorem C1_boundary_counterexample :
    sBd.expires_at ≤ 100 ∧
    Fn.validate_session false [("sid", sBd)] 100 "sid" none none
      = (FnResult.ok (identityOf sBd), [("sid", { sBd with last_active := 100 })]) := by
  decide

/-- C1, amended: for every stored session whose expires_at is STRICTLY less
than the current time, Validate deletes the session and returns Expired, and
any subsequent Validate of the same session_id returns NotFound. -/
theorem C1_strict_expiry (st : Store) (now : Int) (sid : String) (ip ua : Option String)
    (s : Session) (hget : storeGet st sid = some s) (hexp : s.expires_at < now) :
    Fn.validate_session false st now sid ip ua = (FnResult.expired, storeDelete st sid) ∧
    ∀ (now' : Int) (ip' ua' : Option String),
      Fn.validate_session false (storeDelete st sid) now' sid ip' ua'
        = (FnResult.notFound, storeDelete st sid) := by
  constructor
  · simp [Fn.validate_session, hget, hexp]
  · intro now' ip' ua'
    simp [Fn.validate_session, storeGet_storeDelete_same]

/-- C1, witness: the expired session sExp at time 10. -/
theorem C1_witness :
    storeGet [("sid", sExp)] "sid" = some sExp ∧ sExp.expires_at < 10 ∧
    Fn.validate_session false [("sid", sExp)] 10 "sid" none none
      = (FnResult.expired, storeDelete [("sid", sExp)] "sid") :=
  ⟨by decide, by decide,
    (C1_strict_expiry _ 10 _ none none sExp (by decide) (by decide)).1⟩

/-- C2: Validate's checks run in the strict order fetch, expiry, IP
fingerprint, User-Agent fingerprint, short-circuiting on the first failure.
An expired session (in the code's sense, expires_at < now) is reported
Expired and deleted whatever the fingerprints; an IpMismatch answer implies
the session was not expired; a UserAgentMismatch answer implies it was not
expired and the IP check did not fail; a fetched session is never reported
NotFound. -/
theorem C2_strict_order (st : Store) (now : Int) (sid : String) (ip ua : Option String)
    (s : Session) (hget : storeGet st sid = some s) :
    (s.expires_at < now →
        Fn.validate_session false st now sid ip ua = (FnResult.expired, storeDelete st sid)) ∧
    ((Fn.validate_session false st now sid ip ua).1 = FnResult.ipMismatch →
        now ≤ s.expires_at ∧ Fn.ipCheckFails s ip = true) ∧
    ((Fn.validate_session false st now sid ip ua).1 = FnResult.uaMismatch →
        now ≤ s.expires_at ∧ Fn.ipCheckFails s ip = false ∧ Fn.uaCheckFails s ua = true) ∧
    (Fn.validate_session false st now sid ip ua).1 ≠ FnResult.notFound := by
  by_cases h1 : s.expires_at < now <;> by_cases h2 : Fn.ipCheckFails s ip <;>
    by_cases h3 : Fn.uaCheckFails s ua <;>
    simp [Fn.validate_session, hget, h1, h2, h3] <;> omega

/-- C2, witness: session sExp is both expired (at time 10) and
IP-fingerprint-mismatched against client IP 9.9.9.9, and Validate reports
Expired, not a mismatch. -/
theorem C2_witness :
    storeGet [("sid", sExp)] "sid" = some sExp ∧
    Fn.ipCheckFails sExp (some "9.9.9.9") = true ∧
    Fn.validate_session false [("sid", sExp)] 10 "sid" (some "9.9.9.9") (some "EvilAgent")
      = (FnResult.expired, storeDelete [("sid", sExp)] "sid") :=
  ⟨by decide, by decide,
    (C2_strict_order _ 10 _ (some "9.9.9.9") (some "EvilAgent") sExp (by decide)).1 (by decide)⟩

/-- C3, counterexample.  The claim says a Validate call that supplies no
User-Agent never ends in a mismatch and never deletes the session on
fingerprint grounds.  In User.validate_session a request without a
User-Agent header hashes the empty string instead of skipping the check:
the live session sUA (bound to the hash of "AgentA", not expired at time
50, with no stored IP hash) is deleted and rejected when validated with a
request that carries no User-Agent header. -/
theorem C3_missing_ua_header_counterexample :
    (50 : Int) ≤ sUA.expires_at ∧
    User.validate_session false [("sid", sUA)] 50 "sid" (some ⟨"1.2.3.4", none⟩)
      = (none, []) := by
  decide

/-- C3, amended: in the validate_session Cloud Function an absent (or empty)
client IP or User-Agent, and likewise an absent stored hash, skips the
corresponding check: IpMismatch (resp. UserAgentMismatch) is never returned,
and when both checks are skipped a live session is validated and kept (only
last_active is rewritten, nothing is deleted).  The same holds for
User.validate_session when no request object is supplied.  The exception
forced by the counterexample: when a request object is supplied without a
User-Agent header, User.validate_session compares against the hash of the
empty string instead of skipping. -/
theorem C3_skip_not_fail (st : Store) (now : Int) (sid : String) (ip ua : Option String)
    (s : Session) (hget : storeGet st sid = some s) :
    ((optTruthy ip = false ∨ optTruthy s.ip_hash = false) →
        (Fn.validate_session false st now sid ip ua).1 ≠ FnResult.ipMismatch) ∧
    ((optTruthy ua = false ∨ optTruthy s.ua_hash = false) →
        (Fn.validate_session false st now sid ip ua).1 ≠ FnResult.uaMismatch) ∧
    (¬(s.expires_at < now) →
        (optTruthy ip = false ∨ optTruthy s.ip_hash = false) →
        (optTruthy ua = false ∨ optTruthy s.ua_hash = false) →
        Fn.validate_session false st now sid ip ua
          = (FnResult.ok (identityOf s), storePut st sid { s with last_active := now })) ∧
    (¬(s.expires_at < now) →
        User.validate_session false st now sid none
          = (some (identityOf s), storePut st sid { s with last_active := now })) := by
  refine ⟨?_, ?_, ?_, ?_⟩
  · intro hskip
    have hip := ipCheckFails_skip s ip hskip
    by_cases h1 : s.expires_at < now <;> by_cases h3 : Fn.uaCheckFails s ua <;>
      simp [Fn.validate_session, hget, h1, hip, h3]
  · intro hskip
    have hua := uaCheckFails_skip s ua hskip
    by_cases h1 : s.expires_at < now <;> by_cases h2 : Fn.ipCheckFails s ip <;>
      simp [Fn.validate_session, hget, h1, h2, hua]
  · intro h1 hskipi hskipu
    simp [Fn.validate_session, hget, h1, ipCheckFails_skip s ip hskipi,
      uaCheckFails_skip s ua hskipu]
  · intro h1
    simp [User.validate_session, get_entity, hget, h1, update_last_active]

/-- C3, witness: a live session with no stored fingerprints, validated with
an IP but no User-Agent, is accepted by the Cloud Function and by the
in-process model with no request. -/
theorem C3_witness :
    storeGet [("sid", sNoFp)] "sid" = some sNoFp ∧
    Fn.validate_session false [("sid", sNoFp)] 50 "sid" (some "9.9.9.9") none
      = (FnResult.ok (identityOf sNoFp),
         storePut [("sid", sNoFp)] "sid" { sNoFp with last_active := 50 }) ∧
    User.validate_session false [("sid", sNoFp)] 50 "sid" none
      = (some (identityOf sNoFp),
         storePut [("sid", sNoFp)] "sid" { sNoFp with last_active := 50 }) :=
  ⟨by decide,
    (C3_skip_not_fail _ 50 _ (some "9.9.9.9") none sNoFp (by decide)).2.2.1
      (by decide) (by decide) (by decide),
    (C3_skip_not_fail _ 50 _ (some "9.9.9.9") none sNoFp (by decide)).2.2.2 (by decide)⟩

/-- C4: the claim (and User.delete_session's own docstring) says deleting an
absent session_id returns false.  On a healthy store User.delete_session
returns True for an absent session_id, because the Datastore delete of a
missing key succeeds and delete_entity then returns True; the
delete_session Cloud Function, by contrast, answers deleted = false for the
absent id and true-then-false across two calls on a present one, as the
claim demands.  The in-process implementation therefore answers
true-then-TRUE. -/
theorem C4_delete_divergence :
    User.delete_session false [] "sid" = (true, []) ∧
    Fn.delete_session false [] "sid" = (some false, []) ∧
    User.delete_session false [("sid", sNoFp)] "sid" = (true, []) ∧
    Fn.delete_session false [("sid", sNoFp)] "sid" = (some true, []) := by
  decide

/-- C5: the claim says a failing store is always surfaced as a distinct
StoreUnavailable outcome.  The in-process helpers swallow every store
exception: validate_session answers None on a failing store even though the
live session sNoFp is stored — byte-for-byte the same answer an unknown
session_id gets on a healthy store; create_session still hands out the
session id although nothing was written; delete_session answers a plain
False.  Only the Cloud Function surfaces the distinct 500 (storeError)
outcome. -/
theorem C5_store_failure_swallowed :
    User.validate_session true [("sid", sNoFp)] 50 "sid" none = (none, [("sid", sNoFp)]) ∧
    User.validate_session false [] 50 "missing" none = (none, []) ∧
    User.create_session true [] 0 "sid" "u" "e" "n" none none = ("sid", []) ∧
    User.delete_session true [("sid", sNoFp)] "sid" = (false, [("sid", sNoFp)]) ∧
    Fn.validate_session true [("sid", sNoFp)] 50 "sid" none none
      = (FnResult.storeError, [("sid", sNoFp)]) := by
  decide

/-- C6: when some stored session of the given user_id has expires_at
strictly after now, User.get returns the identity snapshot of such a
session — given no session_id, comparing no fingerprint, deleting nothing
and writing nothing (the embedded function consumes no store and produces
none, as the source only runs a query); when no such session exists it
returns None. -/
theorem C6_user_get (st : Store) (now : Int) (uid : String) :
    ((∃ p ∈ st, p.2.user_id = uid ∧ now < p.2.expires_at) →
      ∃ p ∈ st, p.2.user_id = uid ∧ now < p.2.expires_at ∧
        User.get false st now uid = some (identityOf p.2)) ∧
    ((∀ p ∈ st, ¬(p.2.user_id = uid ∧ now < p.2.expires_at)) →
      User.get false st now uid = none) := by
  constructor
  · intro hex
    obtain ⟨p, hp, h1, h2⟩ := hex
    have hsome : (st.find? (fun p => p.2.user_id == uid && decide (now < p.2.expires_at))).isSome :=
      List.find?_isSome.mpr ⟨p, hp, by simp [h1, h2]⟩
    obtain ⟨q, hq⟩ := Option.isSome_iff_exists.mp hsome
    have hqmem := List.mem_of_find?_eq_some hq
    have hqpred := List.find?_some hq
    simp only [Bool.and_eq_true, beq_iff_eq, decide_eq_true_eq] at hqpred
    exact ⟨q, hqmem, hqpred.1, hqpred.2, by simp [User.get, hq]⟩
  · intro hall
    have hnone : st.find? (fun p => p.2.user_id == uid && decide (now < p.2.expires_at)) = none :=
      List.find?_eq_none.mpr (fun p hp => by
        have := hall p hp
        simp only [Bool.and_eq_true, beq_iff_eq, decide_eq_true_eq]
        tauto)
    simp [User.get, hnone]

/-- C6, witness: with the live session sNoFp of user u3 stored next to the
expired session sExp, User.get finds an identity for u3. -/
theorem C6_witness :
    (∃ p ∈ [("a", sExp), ("b", sNoFp)], p.2.user_id = "u3" ∧ (50 : Int) < p.2.expires_at) ∧
    (∃ p ∈ [("a", sExp), ("b", sNoFp)], p.2.user_id = "u3" ∧ (50 : Int) < p.2.expires_at ∧
      User.get false [("a", sExp), ("b", sNoFp)] 50 "u3" = some (identityOf p.2)) :=
  ⟨by decide, (C6_user_get [("a", sExp), ("b", sNoFp)] 50 "u3").1 (by decide)⟩

/-- C7: create followed immediately (now' still before the TTL instant) by
validate of the returned session id, with the same ip/user_agent as at
creation or none at all, succeeds and returns exactly the identity
(user_id, email, name, picture) given to create. -/
theorem C7_roundtrip (st : Store) (now now' : Int) (sid : String)
    (u e n : String) (p ip ua ip' ua' : Option String)
    (hu : u ≠ "") (he : e ≠ "") (hn : n ≠ "")
    (httl : now' < now + thirtyDays)
    (hip : ip' = ip ∨ ip' = none) (hua : ua' = ua ∨ ua' = none) :
    (Fn.validate_session false (Fn.create_session false st now sid u e n p ip ua).2
        now' sid ip' ua').1
      = FnResult.ok ⟨u, e, n, p⟩ := by
  have hstore : (Fn.create_session false st now sid u e n p ip ua).2
      = storePut st sid (Fn.createdRecord now u e n p ip ua) := by
    simp [Fn.create_session, strTruthy, hu, he, hn]
  have hget : storeGet (Fn.create_session false st now sid u e n p ip ua).2 sid
      = some (Fn.createdRecord now u e n p ip ua) := by
    rw [hstore]; exact storeGet_storePut_same st sid _
  have hexp : ¬((Fn.createdRecord now u e n p ip ua).expires_at < now') := by
    simp only [Fn.createdRecord]
    omega
  have hipc : Fn.ipCheckFails (Fn.createdRecord now u e n p ip ua) ip' = false := by
    rcases hip with h | h
    · subst h; exact ipCheckFails_of_own_hash _ _ rfl
    · subst h; exact ipCheckFails_skip _ _ (Or.inl rfl)
  have huac : Fn.uaCheckFails (Fn.createdRecord now u e n p ip ua) ua' = false := by
    rcases hua with h | h
    · subst h; exact uaCheckFails_of_own_hash _ _ rfl
    · subst h; exact uaCheckFails_skip _ _ (Or.inl rfl)
  simp only [Fn.validate_session, hget]
  rw [if_neg hexp, hipc, huac]
  rfl

/-- C7, witness: a concrete round trip with ip 1.2.3.4 and user agent
TestAgent, validated five seconds later with the same IP and no
user agent. -/
theorem C7_witness :
    ("u7" : String) ≠ "" ∧ (5 : Int) < 0 + thirtyDays ∧
    (Fn.validate_session false
        (Fn.create_session false [] 0 "sid" "u7" "e7" "n7" (some "pic")
          (some "1.2.3.4") (some "TestAgent")).2
        5 "sid" (some "1.2.3.4") none).1
      = FnResult.ok ⟨"u7", "e7", "n7", some "pic"⟩ :=
  ⟨by decide, by decide,
    C7_roundtrip [] 0 5 "sid" "u7" "e7" "n7" (some "pic") (some "1.2.3.4") (some "TestAgent")
      (some "1.2.3.4") none (by decide) (by decide) (by decide) (by decide)
      (Or.inl rfl) (Or.inr rfl)⟩

/-- C8: a successful Validate rewrites the stored record only in
last_active (set to now): the record found afterwards is the old record
with last_active replaced, so user_id, email, name, picture, created_at,
ip_hash, ua_hash and expires_at are untouched (fixed-window expiry), and
every other session id maps to exactly what it mapped to before. -/
theorem C8_touch_only_last_active (st : Store) (now : Int) (sid : String)
    (ip ua : Option String) (i : Identity) (st' : Store)
    (h : Fn.validate_session false st now sid ip ua = (FnResult.ok i, st')) :
    ∃ s, storeGet st sid = some s ∧ i = identityOf s ∧
      storeGet st' sid = some { s with last_active := now } ∧
      ∀ sid', sid' ≠ sid → storeGet st' sid' = storeGet st sid' := by
  rcases hget : storeGet st sid with _ | s
  · simp [Fn.validate_session, hget] at h
  · by_cases h1 : s.expires_at < now
    · simp [Fn.validate_session, hget, h1] at h
    · by_cases h2 : Fn.ipCheckFails s ip
      · simp [Fn.validate_session, hget, h1, h2] at h
      · by_cases h3 : Fn.uaCheckFails s ua
        · simp [Fn.validate_session, hget, h1, h2, h3] at h
        · simp only [Fn.validate_session, hget, h1, h2, h3, Bool.false_eq_true, if_false,
            Prod.mk.injEq, FnResult.ok.injEq] at h
          obtain ⟨hi, hst⟩ := h
          refine ⟨s, rfl, hi.symm, ?_, ?_⟩
          · rw [← hst]; exact storeGet_storePut_same st sid _
          · intro sid' hne
            rw [← hst]; exact storeGet_storePut_other st sid sid' _ hne

/-- C8, witness: validating the live session sNoFp at time 50 succeeds and
the store afterwards holds sNoFp with only last_active moved to 50. -/
theorem C8_witness :
    Fn.validate_session false [("sid", sNoFp)] 50 "sid" none none
      = (FnResult.ok (identityOf sNoFp), [("sid", { sNoFp with last_active := 50 })]) ∧
    (∃ s, storeGet [("sid", sNoFp)] "sid" = some s ∧ identityOf sNoFp = identityOf s ∧
      storeGet [("sid", { sNoFp with last_active := 50 })] "sid"
        = some { s with last_active := 50 } ∧
      ∀ sid', sid' ≠ "sid" →
        storeGet [("sid", { sNoFp with last_active := 50 })] sid'
          = storeGet [("sid", sNoFp)] sid') :=
  ⟨by decide,
    C8_touch_only_last_active [("sid", sNoFp)] 50 "sid" none none (identityOf sNoFp)
      [("sid", { sNoFp with last_active := 50 })] (by decide)⟩

/-- C9, counterexample.  The claim says ua_hash is stored only when the
User-Agent is supplied and is absent otherwise.  User.create_session, given
a request whose User-Agent header is absent, stores the hash of the empty
string — e3b0c44298fc1c14, the first 16 hex characters of SHA-256 of "" —
instead of leaving ua_hash absent. -/
theorem C9_empty_ua_hash_counterexample :
    (storeGet (User.create_session false [] 0 "sid" "u" "e" "n" none
        (some ⟨"1.2.3.4", none⟩)).2 "sid").map Session.ua_hash
      = some (some "e3b0c44298fc1c14") := by
  decide

/-- C9, amended: every Create stores created_at = last_active = now and
expires_at = now + 30 days.  The create_session Cloud Function stores
ip_hash/ua_hash as the first 16 hex characters of the SHA-256 of the client
IP/User-Agent when the corresponding input is supplied (truthy) and absent
otherwise, exactly as the claim says.  User.create_session stores both
hashes whenever a request object is present — hashing the empty string for
an absent User-Agent header rather than leaving the hash absent — and
neither hash when no request is given. -/
theorem C9_created_record (st : Store) (now : Int) (sid : String)
    (u e n : String) (p ip ua : Option String) (req : Option PyRequest)
    (hu : u ≠ "") (he : e ≠ "") (hn : n ≠ "") :
    (∃ r, storeGet (Fn.create_session false st now sid u e n p ip ua).2 sid = some r ∧
      r.created_at = now ∧ r.last_active = now ∧ r.expires_at = now + 30 * day ∧
      (optTruthy ip = true → r.ip_hash = some ((sha256Hex (ip.getD "")).take 16)) ∧
      (optTruthy ip = false → r.ip_hash = none) ∧
      (optTruthy ua = true → r.ua_hash = some ((sha256Hex (ua.getD "")).take 16)) ∧
      (optTruthy ua = false → r.ua_hash = none)) ∧
    (∃ r, storeGet (User.create_session false st now sid u e n p req).2 sid = some r ∧
      r.created_at = now ∧ r.last_active = now ∧ r.expires_at = now + 30 * day ∧
      r.ip_hash = req.map (fun q => (sha256Hex q.remote_addr).take 16) ∧
      r.ua_hash = req.map (fun q => (sha256Hex (q.userAgentHeader.getD "")).take 16)) := by
  constructor
  · refine ⟨Fn.createdRecord now u e n p ip ua, ?_, rfl, rfl, rfl, ?_, ?_, ?_, ?_⟩
    · have hstore : (Fn.create_session false st now sid u e n p ip ua).2
          = storePut st sid (Fn.createdRecord now u e n p ip ua) := by
        simp [Fn.create_session, strTruthy, hu, he, hn]
      rw [hstore]
      exact storeGet_storePut_same st sid _
    · intro h; simp [Fn.createdRecord, h, fingerprint16]
    · intro h; simp [Fn.createdRecord, h]
    · intro h; simp [Fn.createdRecord, h, fingerprint16]
    · intro h; simp [Fn.createdRecord, h]
  · refine ⟨User.createdRecord now u e n p req, ?_, rfl, rfl, rfl, ?_, ?_⟩
    · have hstore : (User.create_session false st now sid u e n p req).2
          = storePut st sid (User.createdRecord now u e n p req) := by
        simp [User.create_session]
      rw [hstore]
      exact storeGet_storePut_same st sid _
    · simp [User.createdRecord, fingerprint16]
    · simp [User.createdRecord, fingerprint16]

/-- C9, witness: the Cloud-Function create at time 0 with an IP and no
User-Agent stores the expected record. -/
theorem C9_witness :
    ("u9" : String) ≠ "" ∧
    (∃ r, storeGet (Fn.create_session false [] 0 "sid" "u9" "e9" "n9" none
        (some "1.2.3.4") none).2 "sid" = some r ∧
      r.created_at = 0 ∧ r.last_active = 0 ∧ r.expires_at = 0 + 30 * day ∧
      (optTruthy (some "1.2.3.4") = true →
        r.ip_hash = some ((sha256Hex ((some "1.2.3.4").getD "")).take 16)) ∧
      (optTruthy (some "1.2.3.4") = false → r.ip_hash = none) ∧
      (optTruthy (none : Option String) = true →
        r.ua_hash = some ((sha256Hex ((none : Option String).getD "")).take 16)) ∧
      (optTruthy (none : Option String) = false → r.ua_hash = none)) :=
  ⟨by decide,
    (C9_created_record [] 0 "sid" "u9" "e9" "n9" none (some "1.2.3.4") none none
      (by decide) (by decide) (by decide)).1⟩

/-- C10: on a store with distinct keys, the sweep deletes exactly the
sessions whose last_active is strictly older than now minus 7 days —
whatever their expires_at — in key batches of at most 500, and the returned
count is the number of sessions deleted. -/
theorem C10_sweep (st : Store) (now : Int) (hnd : (st.map Prod.fst).Nodup) :
    (Fn.cleanup_old_sessions st now).1
        = (st.filter (fun p => decide (p.2.last_active < now - sevenDays))).length ∧
    (Fn.cleanup_old_sessions st now).2
        = st.filter (fun p => !decide (p.2.last_active < now - sevenDays)) ∧
    ∀ b ∈ chunksOfSucc 499
        ((st.filter (fun p => decide (p.2.last_active < now - sevenDays))).map (fun p => p.1)),
      b.length ≤ 500 := by
  have hflat : (chunksOfSucc 499
      ((st.filter (fun p => decide (p.2.last_active < now - sevenDays))).map
        (fun p => p.1))).flatten
      = (st.filter (fun p => decide (p.2.last_active < now - sevenDays))).map
        (fun p => p.1) := chunksOfSucc_flatten _ _
  refine ⟨?_, ?_, ?_⟩
  · show (Fn.deleteBatches _ st).1 = _
    rw [deleteBatches_count]
    calc ((chunksOfSucc 499
          ((st.filter (fun p => decide (p.2.last_active < now - sevenDays))).map
            (fun p => p.1))).map List.length).sum
        = ((chunksOfSucc 499
            ((st.filter (fun p => decide (p.2.last_active < now - sevenDays))).map
              (fun p => p.1))).flatten).length := (List.length_flatten _).symm
      _ = ((st.filter (fun p => decide (p.2.last_active < now - sevenDays))).map
            (fun p => p.1)).length := by rw [hflat]
      _ = (st.filter (fun p => decide (p.2.last_active < now - sevenDays))).length :=
            List.length_map _ _
  · show (Fn.deleteBatches _ st).2 = _
    rw [deleteBatches_store, List.filter_congr]
    intro p hp
    rw [hflat]
    congr 1
    by_cases hpred : p.2.last_active < now - sevenDays
    · have hmem : p.1 ∈ (st.filter
          (fun q => decide (q.2.last_active < now - sevenDays))).map (fun q => q.1) :=
        List.mem_map.mpr ⟨p, List.mem_filter.mpr ⟨hp, by simpa using hpred⟩, rfl⟩
      simp [List.contains, hmem, hpred]
    · have hnotmem : p.1 ∉ (st.filter
          (fun q => decide (q.2.last_active < now - sevenDays))).map (fun q => q.1) := by
        intro hmem
        obtain ⟨q, hq, hqk⟩ := List.mem_map.mp hmem
        have hqst := List.mem_filter.mp hq
        have hqp : q = p := nodup_keys_inj hnd hqst.1 hp hqk
        rw [hqp] at hqst
        simp at hqst
        omega
      simp [List.contains, hnotmem, hpred]
  · intro b hb
    exact chunksOfSucc_mem_length 499 _ b hb

/-- C10, witness: sweeping a two-session store at time 0 deletes exactly the
long-inactive session sOld7 (despite its far-future expires_at) and keeps
the recently active sNoFp, reporting one deletion in batches of at most
500. -/
theorem C10_witness :
    (([("a", sOld7), ("b", sNoFp)] : Store).map Prod.fst).Nodup ∧
    (Fn.cleanup_old_sessions [("a", sOld7), ("b", sNoFp)] 0).1
        = (([("a", sOld7), ("b", sNoFp)] : Store).filter
            (fun p => decide (p.2.last_active < 0 - sevenDays))).length ∧
    (Fn.cleanup_old_sessions [("a", sOld7), ("b", sNoFp)] 0).2
        = ([("a", sOld7), ("b", sNoFp)] : Store).filter
            (fun p => !decide (p.2.last_active < 0 - sevenDays)) ∧
    ∀ b ∈ chunksOfSucc 499
        ((([("a", sOld7), ("b", sNoFp)] : Store).filter
            (fun p => decide (p.2.last_active < 0 - sevenDays))).map (fun p => p.1)),
      b.length ≤ 500 :=
  ⟨by decide, C10_sweep [("a", sOld7), ("b", sNoFp)] 0 (by decide)⟩

end ClonedIt
